import Mathlib

/-!
Shallow embedding of the whatsapp-baileys-bot façade (src/index.js, with
src/example.js as a close variant), covering the message dispatcher
(`sendMessage`), the connection-close reconnect policy of
`startWhatsAppBot`, and the inbound `messages.upsert` router.

The transport collaborator (the Baileys socket) is modelled as a record of
two oracles: `onWhatsApp` (the deliverability query, returning an array of
existence records or raising an error) and the low-level `sendMessage`
of the socket (here `sendText`, returning the sent-message record or raising
an error). JS exceptions are modelled with `Except String`, carrying the
exception message text. The embedded dispatcher additionally returns
the list of transport calls it issued, in order, so that call-count and
call-argument properties are statable.
-/

/-- One element of the array returned by `sock.onWhatsApp(number)`:
a record `{ exists, jid }`. The JS field `exists` is a Lean keyword,
embedded here as `exists_`. -/
structure ExistsResult where
  exists_ : Bool
  jid : String
deriving DecidableEq, Repr

/-- The `key` sub-record of a sent message: the code reads `key.id`. -/
structure SentKey where
  id : String
deriving DecidableEq, Repr

/-- The record resolved by `sock.sendMessage(jid, { text })`: the code reads
`key.id` and `messageTimestamp`. -/
structure SentMessage where
  key : SentKey
  messageTimestamp : Nat
deriving DecidableEq, Repr

/-- The transport collaborator (Baileys socket), as the façade consumes it:
a deliverability query and a raw send, each of which may raise an error
carrying a message text. -/
structure Transport where
  onWhatsApp : String → Except String (List ExistsResult)
  sendText : String → String → Except String SentMessage

/-- The outcome record returned by `sendMessage` in src/index.js:
`{ success, messageId?, timestamp?, error? }`; an absent JS field is
`none`. -/
structure SendOutcome where
  success : Bool
  messageId : Option String
  timestamp : Option Nat
  error : Option String
deriving DecidableEq, Repr

/-- One call issued against the transport by the dispatcher. -/
inductive TransportCall where
  | query (arg : String)
  | send (jid : String) (text : String)
deriving DecidableEq, Repr

/-- Whether a transport call is a deliverability query. -/
def TransportCall.isQuery : TransportCall → Bool
  | .query _ => true
  | .send _ _ => false

/-- Whether a transport call is a send. -/
def TransportCall.isSend : TransportCall → Bool
  | .query _ => false
  | .send _ _ => true

/-- The canonical domain suffix appended during normalization
(src/index.js line 127). -/
def waDomainSuffix : String := "@s.whatsapp.net"

/-- The fixed not-registered error string of src/index.js line 138
(example.js line 196 uses the shorter variant). -/
def notRegisteredError : String := "Номер не зарегистрирован в WhatsApp"

/-- src/index.js line 127:
the ternary appending the suffix when `phoneNumber.includes` finds no
separator. -/
def normalizeJid (phoneNumber : String) : String :=
  if phoneNumber.contains '@' then phoneNumber else phoneNumber ++ waDomainSuffix

/-- src/index.js line 134: the guard `!result || !result.exists`, where
`result` is the first element of the array returned by `onWhatsApp`
(`undefined` when the array is empty). -/
def queryNegative (results : List ExistsResult) : Bool :=
  match results.head? with
  | none => true
  | some result => !result.exists_

/-- The `sendMessage(sock, phoneNumber, message)` function of src/index.js
lines 124-162,
returning the outcome together with the ordered list of transport calls
issued. The whole body runs inside `try`; a raised error from either
transport operation is caught and surfaced as
`{ success: false, error: error.message }`. -/
def sendMessage (sock : Transport) (phoneNumber message : String) :
    SendOutcome × List TransportCall :=
  let jid := normalizeJid phoneNumber
  match sock.onWhatsApp phoneNumber with
  | .error e => (⟨false, none, none, some e⟩, [.query phoneNumber])
  | .ok results =>
    if queryNegative results then
      (⟨false, none, none, some notRegisteredError⟩, [.query phoneNumber])
    else
      match sock.sendText jid message with
      | .error e =>
        (⟨false, none, none, some e⟩, [.query phoneNumber, .send jid message])
      | .ok sent =>
        (⟨true, some sent.key.id, some sent.messageTimestamp, none⟩,
          [.query phoneNumber, .send jid message])

/-- The `key` record of an inbound message: the code reads `remoteJid` and
`fromMe`. -/
structure InboundKey where
  remoteJid : Option String
  fromMe : Bool
  id : String
deriving DecidableEq, Repr

/-- The `extendedTextMessage` payload shape; the code reads its `text`. -/
structure ExtendedText where
  text : Option String
deriving DecidableEq, Repr

/-- The `message` payload of an inbound message; the code reads
`conversation` and `extendedTextMessage?.text`. -/
structure InboundContent where
  conversation : Option String
  extendedTextMessage : Option ExtendedText
deriving DecidableEq, Repr

/-- One element of the `messages` array of a `messages.upsert` batch. -/
structure InboundMessage where
  key : InboundKey
  message : Option InboundContent
  pushName : Option String
deriving DecidableEq, Repr

/-- JS `a || b` on an optional string `a`: `undefined` and the empty string
are falsy. -/
def jsOrString (a : Option String) (b : String) : String :=
  match a with
  | none => b
  | some s => if s = "" then b else s

/-- src/index.js lines 99-100:
`message.message?.conversation || message.message?.extendedTextMessage?.text || ''`. -/
def messageText (m : InboundMessage) : String :=
  jsOrString (m.message.bind InboundContent.conversation)
    (jsOrString ((m.message.bind InboundContent.extendedTextMessage).bind
      ExtendedText.text) "")

/-- The per-message body of the `messages.upsert` loop (src/index.js
lines 95-112): a message whose `key.fromMe` flag is set is skipped
(`continue`) and contributes no handler invocations; any other message is
handed to the processing body `handle`, which yields the invocations it
performs for that message. -/
def routeMessage {α : Type} (handle : InboundMessage → List α)
    (m : InboundMessage) : List α :=
  if m.key.fromMe then [] else handle m

/-- The `for (const message of messages)` loop, in arrival order. -/
def routeLoop {α : Type} (handle : InboundMessage → List α) :
    List InboundMessage → List α
  | [] => []
  | m :: rest => routeMessage handle m ++ routeLoop handle rest

/-- The `messages.upsert` handler of src/index.js lines 92-113: a batch
whose `type` is not `notify` is dropped whole (line 93); otherwise each
message is processed in order. -/
def messagesUpsert {α : Type} (messages : List InboundMessage) (type : String)
    (handle : InboundMessage → List α) : List α :=
  if type = "notify" then routeLoop handle messages else []

/-- The `DisconnectReason.loggedOut` code of the Baileys library (HTTP 401), the one
status code the close handler treats as non-recoverable. -/
def disconnectReasonLoggedOut : Nat := 401

/-- An action taken by the connection-close branch of the
`connection.update` observer. -/
inductive LifecycleAction where
  | delayMs (ms : Nat)
  | startBot
deriving DecidableEq, Repr

/-- The connection-equals-close branch of src/index.js lines 69-81:
`statusCode` is `(lastDisconnect?.error)?.output?.statusCode` (`none` models
`undefined`). `shouldReconnect` is `statusCode !== DisconnectReason.loggedOut`;
if it holds the handler awaits `delay(3000)` and re-invokes
`startWhatsAppBot()` once; otherwise it only logs. -/
def onConnectionClose (statusCode : Option Nat) : List LifecycleAction :=
  if statusCode = some disconnectReasonLoggedOut then []
  else [.delayMs 3000, .startBot]

/-- A transport where every number is registered and every send resolves
with id `ABC123` at timestamp `1700000000` (the end-to-end scenario of the
spec). -/
def okTransport : Transport where
  onWhatsApp := fun _ => .ok [⟨true, "79123456789@s.whatsapp.net"⟩]
  sendText := fun _ _ => .ok ⟨⟨"ABC123"⟩, 1700000000⟩

/-- A transport exhibiting the asymmetry the spec warns about: the
deliverability query recognizes the bare number `79123456789` but returns
an empty array (a false negative) for any other argument, including the
fully-qualified form. -/
def bareOnlyTransport : Transport where
  onWhatsApp := fun number =>
    if number = "79123456789" then .ok [⟨true, "79123456789@s.whatsapp.net"⟩]
    else .ok []
  sendText := fun _ _ => .ok ⟨⟨"ABC123"⟩, 1700000000⟩

/-- A transport whose deliverability query reports every number absent. -/
def absentTransport : Transport where
  onWhatsApp := fun _ => .ok []
  sendText := fun _ _ => .ok ⟨⟨"ABC123"⟩, 1700000000⟩

/-- A transport whose send always raises `Timed Out` while the
deliverability query succeeds. -/
def sendErrorTransport : Transport where
  onWhatsApp := fun _ => .ok [⟨true, "79123456789@s.whatsapp.net"⟩]
  sendText := fun _ _ => .error "Timed Out"

/-- A transport whose deliverability query itself raises
`Connection Closed`. -/
def queryErrorTransport : Transport where
  onWhatsApp := fun _ => .error "Connection Closed"
  sendText := fun _ _ => .ok ⟨⟨"ABC123"⟩, 1700000000⟩

/-- A self-sent inbound message (`key.fromMe` set). -/
def selfMsg : InboundMessage :=
  ⟨⟨some "79123456789@s.whatsapp.net", true, "SELF1"⟩,
    some ⟨some "hello from me", none⟩, some "Me"⟩

/-- A peer inbound message carrying the body `/help`. -/
def peerMsg : InboundMessage :=
  ⟨⟨some "79987654321@s.whatsapp.net", false, "PEER1"⟩,
    some ⟨some "/help", none⟩, some "Peer"⟩

/-- A processing body that records one invocation per message, tagged with
the extracted body text. -/
def echoHandle (m : InboundMessage) : List String := [messageText m]

/-- A character contained in the right operand is contained in an
append. -/
theorem contains_append_of_right {a b : String} {c : Char}
    (h : b.contains c = true) : (a ++ b).contains c = true := by
  rw [String.contains_iff] at h ⊢
  rw [String.data_append]
  exact List.mem_append_right _ h

/-- The canonical domain suffix contains the separator. -/
theorem waDomainSuffix_contains_at : waDomainSuffix.contains '@' = true := by
  rw [String.contains_iff]
  decide

/-- Normalizing a bare destination appends the domain suffix. -/
theorem normalizeJid_of_bare {phoneNumber : String}
    (h : phoneNumber.contains '@' = false) :
    normalizeJid phoneNumber = phoneNumber ++ waDomainSuffix := by
  simp [normalizeJid, h]

/-- Normalizing leaves a destination that already carries the separator
unchanged; in particular a bare number with the suffix appended is fixed. -/
theorem normalizeJid_of_qualified {phoneNumber : String}
    (h : phoneNumber.contains '@' = true) :
    normalizeJid phoneNumber = phoneNumber := by
  simp [normalizeJid, h]

/-- The bare test number carries no separator. -/
theorem bareNumber_not_contains_at : ("79123456789".contains '@') = false := by
  rw [Bool.eq_false_iff]
  intro h
  rw [String.contains_iff] at h
  simp at h

/-- Every run of the dispatcher issues the deliverability query exactly
once, with the destination exactly as the caller passed it. -/
theorem sendMessage_queries (sock : Transport) (phoneNumber message : String) :
    (sendMessage sock phoneNumber message).2.filter TransportCall.isQuery
      = [TransportCall.query phoneNumber] := by
  cases hq : sock.onWhatsApp phoneNumber with
  | error e => simp [sendMessage, hq, List.filter, TransportCall.isQuery]
  | ok results =>
    by_cases hn : queryNegative results
    · simp [sendMessage, hq, hn, List.filter, TransportCall.isQuery]
    · cases hs : sock.sendText (normalizeJid phoneNumber) message with
      | error e =>
        simp [sendMessage, hq, hn, hs, List.filter, TransportCall.isQuery,
          TransportCall.isSend]
      | ok sent =>
        simp [sendMessage, hq, hn, hs, List.filter, TransportCall.isQuery,
          TransportCall.isSend]

/-- Any send the dispatcher issues goes to the normalized destination and
carries the body given by the caller. -/
theorem sendMessage_send_shape (sock : Transport)
    (phoneNumber message jid text : String)
    (h : TransportCall.send jid text ∈ (sendMessage sock phoneNumber message).2) :
    jid = normalizeJid phoneNumber ∧ text = message := by
  cases hq : sock.onWhatsApp phoneNumber with
  | error e => simp [sendMessage, hq] at h
  | ok results =>
    by_cases hn : queryNegative results
    · simp [sendMessage, hq, hn] at h
    · cases hs : sock.sendText (normalizeJid phoneNumber) message with
      | error e =>
        simp [sendMessage, hq, hn, hs] at h
        exact h
      | ok sent =>
        simp [sendMessage, hq, hn, hs] at h
        exact h

/-- C2 (counterexample): the outcome the code returns for an unregistered
destination carries the fixed Russian string of src/index.js line 138, not
the literal string "destination not registered"; no send call is made. -/
theorem sendMessage_fixed_string_cx :
    (sendMessage absentTransport "71111111111" "hi").1.error
        = some notRegisteredError ∧
    (sendMessage absentTransport "71111111111" "hi").1.error
        ≠ some "destination not registered" ∧
    (sendMessage absentTransport "71111111111" "hi").2
        = [TransportCall.query "71111111111"] := by
  refine ⟨?_, ?_, ?_⟩
  · simp [sendMessage, absentTransport, queryNegative]
  · simp [sendMessage, absentTransport, queryNegative, notRegisteredError]
  · simp [sendMessage, absentTransport, queryNegative]

/-- C2 (amended): whenever the deliverability query returns a result that
is absent or not existing (or no result at all), `sendMessage` returns
`{success := false, error := notRegisteredError}` — the fixed string
`Номер не зарегистрирован в WhatsApp` of src/index.js — and issues no send
call. -/
theorem sendMessage_not_registered_outcome (sock : Transport)
    (phoneNumber message : String) (results : List ExistsResult)
    (h : sock.onWhatsApp phoneNumber = .ok results)
    (hneg : queryNegative results = true) :
    (sendMessage sock phoneNumber message).1
        = ⟨false, none, none, some notRegisteredError⟩ ∧
    (sendMessage sock phoneNumber message).2
        = [TransportCall.query phoneNumber] := by
  constructor <;> simp [sendMessage, h, hneg]

/-- C2 (witness): concrete run of the amended theorem at the
end-to-end unregistered number of the spec. -/
theorem sendMessage_not_registered_outcome_witness :
    (sendMessage absentTransport "71111111111" "hi").1
        = ⟨false, none, none, some notRegisteredError⟩ ∧
    (sendMessage absentTransport "71111111111" "hi").2
        = [TransportCall.query "71111111111"] :=
  sendMessage_not_registered_outcome absentTransport "71111111111" "hi" [] rfl rfl

/-- C3: for every outcome the dispatcher can produce, `success = true` iff
`messageId` and `timestamp` are present and `error` is absent, and
`success = false` iff `error` is present and `messageId` and `timestamp`
are absent. -/
theorem sendOutcome_success_iff (sock : Transport) (phoneNumber message : String) :
    ((sendMessage sock phoneNumber message).1.success = true ↔
      ((sendMessage sock phoneNumber message).1.messageId.isSome = true ∧
       (sendMessage sock phoneNumber message).1.timestamp.isSome = true ∧
       (sendMessage sock phoneNumber message).1.error = none)) ∧
    ((sendMessage sock phoneNumber message).1.success = false ↔
      ((sendMessage sock phoneNumber message).1.error.isSome = true ∧
       (sendMessage sock phoneNumber message).1.messageId = none ∧
       (sendMessage sock phoneNumber message).1.timestamp = none)) := by
  cases hq : sock.onWhatsApp phoneNumber with
  | error e => simp [sendMessage, hq]
  | ok results =>
    by_cases hn : queryNegative results
    · simp [sendMessage, hq, hn]
    · cases hs : sock.sendText (normalizeJid phoneNumber) message with
      | error e => simp [sendMessage, hq, hn, hs]
      | ok sent => simp [sendMessage, hq, hn, hs]

/-- C4: when the deliverability query answers positively and the send
raises an error with message text `e`, the dispatcher catches it and
returns a failure outcome whose `error` field is exactly `e`; the embedded
function is total, so every exit path yields a `SendOutcome`. -/
theorem sendMessage_send_error_propagated (sock : Transport)
    (phoneNumber message e : String) (results : List ExistsResult)
    (h : sock.onWhatsApp phoneNumber = .ok results)
    (hneg : queryNegative results = false)
    (hs : sock.sendText (normalizeJid phoneNumber) message = .error e) :
    (sendMessage sock phoneNumber message).1 = ⟨false, none, none, some e⟩ := by
  simp [sendMessage, h, hneg, hs]

/-- C4 (witness): a send that times out is surfaced verbatim. -/
theorem sendMessage_send_error_propagated_witness :
    (sendMessage sendErrorTransport "79123456789" "hi").1
        = ⟨false, none, none, some "Timed Out"⟩ :=
  sendMessage_send_error_propagated sendErrorTransport "79123456789" "hi"
    "Timed Out" [⟨true, "79123456789@s.whatsapp.net"⟩] rfl rfl rfl

/-- C10: when the deliverability query itself raises an error with message
text `e`, the dispatcher catches it, returns a failure outcome carrying
`e` (which differs from the fixed not-registered outcome whenever `e`
differs from the fixed string), and issues no send call. -/
theorem sendMessage_query_error_propagated (sock : Transport)
    (phoneNumber message e : String)
    (h : sock.onWhatsApp phoneNumber = .error e) :
    (sendMessage sock phoneNumber message).1 = ⟨false, none, none, some e⟩ ∧
    (sendMessage sock phoneNumber message).2 = [TransportCall.query phoneNumber] ∧
    (e ≠ notRegisteredError →
      (sendMessage sock phoneNumber message).1
        ≠ ⟨false, none, none, some notRegisteredError⟩) := by
  refine ⟨by simp [sendMessage, h], by simp [sendMessage, h], ?_⟩
  intro hne hc
  rw [show (sendMessage sock phoneNumber message).1 = ⟨false, none, none, some e⟩
    from by simp [sendMessage, h]] at hc
  exact hne (by injection hc with h1 h2 h3 h4; injection h4)

/-- C10 (witness): a query raising `Connection Closed` yields that exact
failure outcome with no send. -/
theorem sendMessage_query_error_propagated_witness :
    (sendMessage queryErrorTransport "79123456789" "hi").1
        = ⟨false, none, none, some "Connection Closed"⟩ ∧
    (sendMessage queryErrorTransport "79123456789" "hi").2
        = [TransportCall.query "79123456789"] ∧
    ("Connection Closed" ≠ notRegisteredError →
      (sendMessage queryErrorTransport "79123456789" "hi").1
        ≠ ⟨false, none, none, some notRegisteredError⟩) :=
  sendMessage_query_error_propagated queryErrorTransport "79123456789" "hi"
    "Connection Closed" rfl

/-- C5: a connection-close event whose disconnect status code is not
`DisconnectReason.loggedOut` performs exactly the action sequence
`delay(3000)` followed by one `startWhatsAppBot()` re-invocation; a close
with the loggedOut code performs no lifecycle action at all. -/
theorem connection_close_reconnect_policy (statusCode : Option Nat) :
    (statusCode ≠ some disconnectReasonLoggedOut →
      onConnectionClose statusCode
        = [LifecycleAction.delayMs 3000, LifecycleAction.startBot]) ∧
    (statusCode = some disconnectReasonLoggedOut →
      onConnectionClose statusCode = []) := by
  constructor <;> intro h <;> simp [onConnectionClose, h]

/-- C5 (witness): a connection-lost close (status 408) reconnects once
after the 3000 ms delay; a loggedOut close (status 401) does nothing. -/
theorem connection_close_reconnect_policy_witness :
    onConnectionClose (some 408)
        = [LifecycleAction.delayMs 3000, LifecycleAction.startBot] ∧
    onConnectionClose (some 401) = [] :=
  ⟨(connection_close_reconnect_policy (some 408)).1 (by decide),
   (connection_close_reconnect_policy (some 401)).2 rfl⟩

/-- C6: every invocation of the dispatcher issues exactly one
deliverability query and at most one send against the transport. -/
theorem sendMessage_call_counts (sock : Transport) (phoneNumber message : String) :
    (sendMessage sock phoneNumber message).2.countP TransportCall.isQuery = 1 ∧
    (sendMessage sock phoneNumber message).2.countP TransportCall.isSend ≤ 1 := by
  cases hq : sock.onWhatsApp phoneNumber with
  | error e =>
    simp [sendMessage, hq, List.countP_cons, TransportCall.isQuery,
      TransportCall.isSend]
  | ok results =>
    by_cases hn : queryNegative results
    · simp [sendMessage, hq, hn, List.countP_cons, TransportCall.isQuery,
        TransportCall.isSend]
    · cases hs : sock.sendText (normalizeJid phoneNumber) message with
      | error e =>
        simp [sendMessage, hq, hn, hs, List.countP_cons, TransportCall.isQuery,
          TransportCall.isSend]
      | ok sent =>
        simp [sendMessage, hq, hn, hs, List.countP_cons, TransportCall.isQuery,
          TransportCall.isSend]

/-- C7: the normalized send address leaves an input containing `@`
unchanged and appends `@s.whatsapp.net` otherwise, and every send call the
dispatcher issues uses exactly this normalized address. -/
theorem sendMessage_normalized_address (sock : Transport)
    (phoneNumber message jid text : String)
    (h : TransportCall.send jid text ∈ (sendMessage sock phoneNumber message).2) :
    normalizeJid phoneNumber
        = (if phoneNumber.contains '@' then phoneNumber
           else phoneNumber ++ "@s.whatsapp.net") ∧
    jid = normalizeJid phoneNumber := by
  exact ⟨rfl, (sendMessage_send_shape sock phoneNumber message jid text h).1⟩

/-- C7 (witness): sending to the bare number through the always-registered
transport issues the send at the suffixed address. -/
theorem sendMessage_normalized_address_witness :
    normalizeJid "79123456789"
        = (if ("79123456789" : String).contains '@' then "79123456789"
           else "79123456789" ++ "@s.whatsapp.net") ∧
    "79123456789@s.whatsapp.net" = normalizeJid "79123456789" :=
  sendMessage_normalized_address okTransport "79123456789" "hello"
    "79123456789@s.whatsapp.net" "hello"
    (by
      simp [sendMessage, okTransport, queryNegative,
        normalizeJid_of_bare bareNumber_not_contains_at, waDomainSuffix])

/-- The routing loop distributes over batch concatenation. -/
theorem routeLoop_append {α : Type} (handle : InboundMessage → List α)
    (l1 l2 : List InboundMessage) :
    routeLoop handle (l1 ++ l2) = routeLoop handle l1 ++ routeLoop handle l2 := by
  induction l1 with
  | nil => simp [routeLoop]
  | cons p ps ih => simp [routeLoop, ih]

/-- C8: a self-sent message (`key.fromMe`) contributes zero handler
invocations regardless of its body, and removing it from a live batch
leaves the router output on the remaining messages unchanged — non-self
messages are still processed. -/
theorem messagesUpsert_skips_fromMe {α : Type} (handle : InboundMessage → List α)
    (pre post : List InboundMessage) (m : InboundMessage)
    (h : m.key.fromMe = true) :
    routeMessage handle m = [] ∧
    messagesUpsert (pre ++ m :: post) "notify" handle
      = messagesUpsert (pre ++ post) "notify" handle := by
  have hm : routeMessage handle m = [] := by simp [routeMessage, h]
  refine ⟨hm, ?_⟩
  simp only [messagesUpsert, if_pos rfl]
  rw [routeLoop_append, routeLoop_append]
  simp [routeLoop, hm]

/-- C8 (witness): a batch of one self message and one peer message routes
exactly as the batch of the peer message alone. -/
theorem messagesUpsert_skips_fromMe_witness :
    routeMessage echoHandle selfMsg = [] ∧
    messagesUpsert [selfMsg, peerMsg] "notify" echoHandle
      = messagesUpsert [peerMsg] "notify" echoHandle :=
  messagesUpsert_skips_fromMe echoHandle [] [peerMsg] selfMsg rfl

/-- C9: a batch whose type is not the live `notify` kind yields zero
handler invocations, whatever its contents. -/
theorem messagesUpsert_skips_non_notify {α : Type}
    (messages : List InboundMessage) (type : String)
    (handle : InboundMessage → List α) (h : type ≠ "notify") :
    messagesUpsert messages type handle = [] := by
  simp [messagesUpsert, h]

/-- C9 (witness): an `append` (backlog) batch produces no invocations. -/
theorem messagesUpsert_skips_non_notify_witness :
    messagesUpsert [selfMsg, peerMsg] "append" echoHandle = [] :=
  messagesUpsert_skips_non_notify [selfMsg, peerMsg] "append" echoHandle
    (by decide)

/-- C1 (counterexample): against a transport whose deliverability query
recognizes the bare number but (as the spec itself warns) gives a false
negative on the fully-qualified form, the call with the fully-qualified
destination issues its deliverability query with the fully-qualified
argument — not the bare form — and the two calls produce different
outcomes (success for the bare form, failure for the qualified form). -/
theorem sendMessage_bare_query_cx :
    ((sendMessage bareOnlyTransport "79123456789@s.whatsapp.net" "hello").2
        = [TransportCall.query "79123456789@s.whatsapp.net"]) ∧
    (TransportCall.query "79123456789@s.whatsapp.net"
        ≠ TransportCall.query "79123456789") ∧
    ((sendMessage bareOnlyTransport "79123456789" "hello").1.success = true) ∧
    ((sendMessage bareOnlyTransport "79123456789@s.whatsapp.net" "hello").1.success
        = false) := by
  have hne : ("79123456789@s.whatsapp.net" : String) ≠ "79123456789" := by decide
  refine ⟨?_, by simp [hne], ?_, ?_⟩
  · simp [sendMessage, bareOnlyTransport, if_neg hne, queryNegative]
  · simp [sendMessage, bareOnlyTransport, queryNegative]
  · simp [sendMessage, bareOnlyTransport, if_neg hne, queryNegative]

/-- C1 (amended): the deliverability query is issued with the destination
exactly as the caller passed it (bare for the bare call, fully-qualified
for the fully-qualified call — not the bare form in both cases), every
send uses the fully-qualified form in both cases, and the two calls
produce identical outcomes provided the deliverability query of the transport
answers the two forms identically. -/
theorem sendMessage_query_uses_original_input (sock : Transport)
    (bare message : String) (hb : bare.contains '@' = false)
    (ho : sock.onWhatsApp bare = sock.onWhatsApp (bare ++ waDomainSuffix)) :
    ((sendMessage sock bare message).2.filter TransportCall.isQuery
        = [TransportCall.query bare]) ∧
    ((sendMessage sock (bare ++ waDomainSuffix) message).2.filter
        TransportCall.isQuery
        = [TransportCall.query (bare ++ waDomainSuffix)]) ∧
    (∀ jid text,
        TransportCall.send jid text ∈ (sendMessage sock bare message).2 →
        jid = bare ++ waDomainSuffix) ∧
    (∀ jid text,
        TransportCall.send jid text
          ∈ (sendMessage sock (bare ++ waDomainSuffix) message).2 →
        jid = bare ++ waDomainSuffix) ∧
    (sendMessage sock bare message).1
        = (sendMessage sock (bare ++ waDomainSuffix) message).1 := by
  have hq : (bare ++ waDomainSuffix).contains '@' = true :=
    contains_append_of_right waDomainSuffix_contains_at
  have hnb : normalizeJid bare = bare ++ waDomainSuffix := normalizeJid_of_bare hb
  have hnq : normalizeJid (bare ++ waDomainSuffix) = bare ++ waDomainSuffix :=
    normalizeJid_of_qualified hq
  refine ⟨sendMessage_queries sock bare message,
    sendMessage_queries sock (bare ++ waDomainSuffix) message, ?_, ?_, ?_⟩
  · intro jid text hmem
    rw [(sendMessage_send_shape sock bare message jid text hmem).1, hnb]
  · intro jid text hmem
    rw [(sendMessage_send_shape sock (bare ++ waDomainSuffix) message jid text
      hmem).1, hnq]
  · simp only [sendMessage, hnb, hnq, ho]
    cases hqr : sock.onWhatsApp (bare ++ waDomainSuffix) with
    | error e => simp
    | ok results =>
      by_cases hn : queryNegative results
      · simp [hn]
      · cases hs : sock.sendText (bare ++ waDomainSuffix) message with
        | error e => simp [hn, hs]
        | ok sent => simp [hn, hs]

/-- C1 (witness): concrete run of the amended theorem against the
always-registered transport, whose query treats both forms alike. -/
theorem sendMessage_query_uses_original_input_witness :
    ((sendMessage okTransport "79123456789" "hello").2.filter
        TransportCall.isQuery = [TransportCall.query "79123456789"]) ∧
    ((sendMessage okTransport ("79123456789" ++ waDomainSuffix) "hello").2.filter
        TransportCall.isQuery
        = [TransportCall.query ("79123456789" ++ waDomainSuffix)]) ∧
    (∀ jid text,
        TransportCall.send jid text
          ∈ (sendMessage okTransport "79123456789" "hello").2 →
        jid = "79123456789" ++ waDomainSuffix) ∧
    (∀ jid text,
        TransportCall.send jid text
          ∈ (sendMessage okTransport ("79123456789" ++ waDomainSuffix) "hello").2 →
        jid = "79123456789" ++ waDomainSuffix) ∧
    (sendMessage okTransport "79123456789" "hello").1
        = (sendMessage okTransport ("79123456789" ++ waDomainSuffix) "hello").1 :=
  sendMessage_query_uses_original_input okTransport "79123456789" "hello"
    bareNumber_not_contains_at rfl
